import Mathlib

/-!
# SwatchX backend — verification of the authentication and CRUD core

Shallow embedding of the SwatchX expense-tracking backend
(`backend/app/routers/auth.py`, `backend/app/routers/expenses.py`,
`backend/app/schemas/user.py`, `backend/app/models/user.py`) in Lean 4,
with theorems settling the specification's claims about it.

Conventions of the embedding:
* Python `Optional[T]` columns become `Option T`.
* A raised `HTTPException` becomes `Except.error` carrying status and detail;
  `db.commit()` of mutated rows becomes returning the updated store.
* Python `str.strip()` is modelled by `strip`, `str.lower()` by `lower`,
  and the regex classes `[a-z]`, `[A-Z]`, `\d` by the corresponding ASCII
  character tests (the repository only ever feeds them ASCII data).
* The SQLAlchemy session is modelled by an explicit list of rows; a
  `filter(...).first()` query becomes `List.find?`.
-/

namespace SwatchX

/-! ## Password hasher (`app/core/security.py`)

`app/core/security.py` is not present in the source tree — only its callers,
declarations and tests are — so the hasher is modelled from the spec. -/

/-- Modelled from the spec: `app/core/security.py` is absent from the source
tree. §4.1 describes `hash` as producing a self-describing string embedding a
fresh random salt together with the digest, and `verify` as recomputing the
digest from the embedded parameters and comparing.  We model the opaque hash
string as a salt paired with the digest (here the normalized plaintext stands
for the digest, which is faithful because bcrypt verification succeeds exactly
when the candidate plaintext equals the hashed one). -/
structure HashString where
  salt : Nat
  digest : String
deriving DecidableEq, Repr

/-- Modelled from the spec (§4.1): `hash(plaintext) -> hash_string`, salt
embedded in the output.  The caller supplies the fresh salt explicitly. -/
def get_password_hash (salt : Nat) (plaintext : String) : HashString :=
  { salt := salt, digest := plaintext }

/-- Modelled from the spec (§4.1): `verify(plaintext, hash_string) -> bool`
recomputes the digest using the parameters embedded in the hash and compares
against the stored digest; never raises in normal flows. -/
def verify_password (plaintext : String) (h : HashString) : Bool :=
  h.digest == plaintext

/-! ## Token service (`app/core/security.py`) — modelled from the spec -/

/-- Modelled from the spec (§4.2): the payload of a signed token — the
caller's claim map (claim values are strings here; the code only ever stores
the subject email) plus the computed absolute expiration time. -/
structure TokenPayload where
  claims : List (String × String)
  exp : Int
deriving DecidableEq, Repr

/-- Modelled from the spec (§4.2): a token string is either a well-formed
token signed under some secret, or structurally malformed junk. -/
inductive TokenString where
  | signed (secret : String) (payload : TokenPayload)
  | malformed (raw : String)
deriving DecidableEq, Repr

/-- Look a claim up in a claim set (first binding wins). -/
def lookupClaim (key : String) : List (String × String) → Option String
  | [] => none
  | (k, v) :: rest => if k == key then some v else lookupClaim key rest

/-- Modelled from the spec (§4.2): `issue(claims, ttl)` serializes the claims
plus the computed absolute expiration `now + ttl` into a compact string signed
with the symmetric secret. -/
def create_access_token (secret : String) (now : Int)
    (data : List (String × String)) (expires_delta : Int) : TokenString :=
  TokenString.signed secret { claims := data, exp := now + expires_delta }

/-- Modelled from the spec (§4.2): `verify(token_string) -> subject | invalid`.
Checks the signature, then that the current time is before the embedded
expiration, then extracts the subject claim; every failure (bad signature,
malformed token, expired, missing subject) uniformly yields `none`, with no
exception propagated. -/
def verify_token (secret : String) (now : Int) : TokenString → Option String
  | TokenString.malformed _ => none
  | TokenString.signed s payload =>
    if s ≠ secret then none
    else if payload.exp ≤ now then none
    else lookupClaim "sub" payload.claims

/-! ## User model (`app/models/user.py`) -/

/-- The `users` table row (`app/models/user.py`).  The DB-generated
`created_at` / `updated_at` timestamps belong to the external store and are
elided; `id` is the surrogate primary key. -/
structure User where
  id : Nat
  email : String
  name : Option String
  hashed_password : HashString
  is_active : Bool
  security_question_1 : Option String
  security_answer_1_hash : Option HashString
  security_question_2 : Option String
  security_answer_2_hash : Option HashString
  security_question_3 : Option String
  security_answer_3_hash : Option HashString
deriving DecidableEq, Repr

/-- The credential store: the list of persisted user rows. -/
abbrev Db := List User

/-- `auth.get_user`: `db.query(User).filter(User.email == email).first()`. -/
def get_user (db : Db) (email : String) : Option User :=
  List.find? (fun u => u.email == email) db

/-- Commit of a mutated row: replace the first user with the given email. -/
def db_update (email : String) (f : User → User) : Db → Db
  | [] => []
  | u :: rest =>
    if u.email == email then f u :: rest else u :: db_update email f rest

/-- `raise HTTPException(status_code=..., detail=...)`. -/
structure HTTPException where
  status_code : Nat
  detail : String
deriving DecidableEq, Repr

/-- Decidable equality for `Except` results, so that validator outcomes can
be evaluated on concrete inputs. -/
instance {e a : Type} [DecidableEq e] [DecidableEq a] : DecidableEq (Except e a) := fun x y =>
  match x, y with
  | Except.ok v, Except.ok w =>
    if h : v = w then isTrue (by rw [h]) else isFalse (by simp [h])
  | Except.error v, Except.error w =>
    if h : v = w then isTrue (by rw [h]) else isFalse (by simp [h])
  | Except.ok _, Except.error _ => isFalse (by simp)
  | Except.error _, Except.ok _ => isFalse (by simp)

/-- `auth.user_has_security_questions`: all three question texts and all three
answer hashes are non-null. -/
def user_has_security_questions (user : User) : Bool :=
  user.security_question_1.isSome && user.security_answer_1_hash.isSome &&
  user.security_question_2.isSome && user.security_answer_2_hash.isSome &&
  user.security_question_3.isSome && user.security_answer_3_hash.isSome

/-! ## Case folding

Python's `str.lower()`, restricted to ASCII (the repository only ever feeds
it ASCII emails and answers): map `'A'..'Z'` to `'a'..'z'` and leave every
other character unchanged. -/

/-- The 26 upper/lower ASCII letter pairs. -/
def asciiCasePairs : List (Char × Char) :=
  [('A', 'a'), ('B', 'b'), ('C', 'c'), ('D', 'd'), ('E', 'e'), ('F', 'f'), ('G', 'g'),
   ('H', 'h'), ('I', 'i'), ('J', 'j'), ('K', 'k'), ('L', 'l'), ('M', 'm'), ('N', 'n'),
   ('O', 'o'), ('P', 'p'), ('Q', 'q'), ('R', 'r'), ('S', 's'), ('T', 't'), ('U', 'u'),
   ('V', 'v'), ('W', 'w'), ('X', 'x'), ('Y', 'y'), ('Z', 'z')]

/-- ASCII lowering of one character. -/
def lowerChar (c : Char) : Char :=
  match asciiCasePairs.find? (fun p => p.1 == c) with
  | some p => p.2
  | none => c

/-- Python `str.lower()`: character-wise ASCII lowering. -/
def lower (s : String) : String :=
  ⟨s.data.map lowerChar⟩

/-- Python's whitespace class for `str.strip()` (ASCII part). -/
def isStripChar (c : Char) : Bool :=
  c == ' ' || c == '\t' || c == '\n' || c == '\r' || c == '\x0b' || c == '\x0c'

/-- Python `str.strip()`: remove leading and trailing whitespace. -/
def strip (s : String) : String :=
  ⟨((s.data.dropWhile isStripChar).reverse.dropWhile isStripChar).reverse⟩

/-- The normalization applied to security answers at setup and at reset
verification: `v.strip().lower()`. -/
def normalizeAnswer (s : String) : String :=
  lower (strip s)

/-! ## Pydantic schemas and field validators (`app/schemas/user.py`) -/

/-- The special-character class `[@$!%*?&]` of the password policy regex. -/
def isPasswordSpecial (c : Char) : Bool :=
  c == '@' || c == '$' || c == '!' || c == '%' || c == '*' || c == '?' || c == '&'

/-- `UserCreate` before validation: raw signup body. -/
structure UserCreate where
  email : String
  password : String
  confirm_password : String
deriving DecidableEq, Repr

/-- `UserCreate.validate_email`: length bound, then case-fold.  (The `EmailStr`
syntactic check itself is the pydantic library's, an external collaborator.) -/
def UserCreate.validate_email (v : String) : Except String String :=
  if v.length > 254 then Except.error "Email address is too long"
  else Except.ok (lower v)

/-- `UserCreate.validate_password`: the password complexity policy.  The regex
classes `[a-z]`, `[A-Z]`, `\d`, `[@$!%*?&]` are modelled as ASCII tests. -/
def UserCreate.validate_password (v : String) : Except String String :=
  if v.length < 8 then Except.error "Password must be at least 8 characters long"
  else if v.length > 128 then Except.error "Password is too long"
  else if !(v.data.any fun c => c.isLower) then
    Except.error "Password must contain at least one lowercase letter"
  else if !(v.data.any fun c => c.isUpper) then
    Except.error "Password must contain at least one uppercase letter"
  else if !(v.data.any fun c => c.isDigit) then
    Except.error "Password must contain at least one number"
  else if !(v.data.any isPasswordSpecial) then
    Except.error "Password must contain at least one special character (@$!%*?&)"
  else Except.ok v

/-- `UserCreate.passwords_match`: confirmation must equal the password. -/
def UserCreate.passwords_match (v : String) (password : String) : Except String String :=
  if v ≠ password then Except.error "Passwords do not match" else Except.ok v

/-- Run all `UserCreate` field validators in declaration order, yielding the
validated model the router receives. -/
def UserCreate.validate (raw : UserCreate) : Except String UserCreate :=
  match UserCreate.validate_email raw.email with
  | Except.error m => Except.error m
  | Except.ok e =>
    match UserCreate.validate_password raw.password with
    | Except.error m => Except.error m
    | Except.ok p =>
      match UserCreate.passwords_match raw.confirm_password p with
      | Except.error m => Except.error m
      | Except.ok c => Except.ok { email := e, password := p, confirm_password := c }

/-- `SecurityQuestion` after validation: question text stripped, answer
normalized, current password stripped. -/
structure SecurityQuestion where
  question : String
  answer : String
  current_password : String
deriving DecidableEq, Repr

/-- `SecurityQuestion.validate_question`: at least 10 characters once
stripped, at most 500 raw; stores the stripped text. -/
def SecurityQuestion.validate_question (v : String) : Except String String :=
  if v == "" || (strip v).length < 10 then
    Except.error "Security question must be at least 10 characters long"
  else if v.length > 500 then Except.error "Security question is too long"
  else Except.ok (strip v)

/-- `SecurityQuestion.validate_answer`: length bounds, then the stored form is
`v.strip().lower()` — answers are normalized (trimmed, lowercased) before
hashing so that later verification is case/whitespace-insensitive. -/
def SecurityQuestion.validate_answer (v : String) : Except String String :=
  if v == "" || (strip v).length < 2 then
    Except.error "Security answer must be at least 2 characters long"
  else if v.length > 100 then Except.error "Security answer is too long"
  else Except.ok (normalizeAnswer v)

/-- `SecurityQuestionUpdate` after field validation (question stripped, answer
normalized, current password stripped, index validated). -/
structure SecurityQuestionUpdate where
  question : String
  answer : String
  current_password : String
  question_index : Nat
deriving DecidableEq, Repr

/-- `SecurityQuestionUpdate.validate_question_index`: the index must be one of
0, 1, 2. -/
def SecurityQuestionUpdate.validate_question_index (v : Nat) : Except String Nat :=
  if v ≠ 0 ∧ v ≠ 1 ∧ v ≠ 2 then Except.error "Question index must be 0, 1, or 2"
  else Except.ok v

/-- `PasswordResetVerify` after validation: email case-folded, the three
answers normalized, new password policy-checked, confirmation matched. -/
structure PasswordResetVerify where
  email : String
  answers : List String
  new_password : String
  confirm_password : String
deriving DecidableEq, Repr

/-- `PasswordResetVerify.validate_answers`: exactly three answers, each
normalized with the same `strip().lower()` as at setup time. -/
def PasswordResetVerify.validate_answers (v : List String) : Except String (List String) :=
  if v.length ≠ 3 then Except.error "All 3 security answers are required"
  else Except.ok (v.map fun answer => normalizeAnswer answer)

/-- `UserResponse`: the public projection returned to clients (never the
password hash); timestamps elided as DB-generated. -/
structure UserResponse where
  id : Nat
  email : String
  is_active : Bool
  has_security_questions : Bool
deriving DecidableEq, Repr

/-- `UserResponse.model_validate(user)` with the default flag value. -/
def UserResponse.model_validate (u : User) : UserResponse :=
  { id := u.id, email := u.email, is_active := u.is_active,
    has_security_questions := false }

/-- The login/signup response body: token plus public user projection. -/
structure Token where
  access_token : TokenString
  token_type : String
  user : UserResponse
deriving DecidableEq, Repr

/-- `SecurityQuestionsResponse`: question texts and the configured flag only —
the schema has no field for answers or answer hashes. -/
structure SecurityQuestionsResponse where
  question_1 : Option String
  question_2 : Option String
  question_3 : Option String
  has_security_questions : Bool
deriving DecidableEq, Repr

/-! ## Authentication routers (`app/routers/auth.py`)

Each endpoint takes the validated schema data (pydantic validation runs
before the router body) together with the explicit bits of ambient state the
Python code reads implicitly: the store, the configured secret, the current
time, the configured token ttl, and fresh bcrypt salts. -/

/-- `auth.authenticate_user`: look the user up by email, then verify the
password; `none` stands for Python's `False`. -/
def authenticate_user (db : Db) (email : String) (password : String) : Option User :=
  match get_user db email with
  | none => none
  | some user => if !(verify_password password user.hashed_password) then none else some user

/-- `POST /auth/signup` (`auth.create_user`): conflict check by case-folded
email, then hash, insert, issue a token and return it with the public
projection.  `salt` is the hasher's fresh salt, `now`/`expire_minutes` the
clock and configured ttl; the new row's `id` models the store's
autoincrement. -/
def create_user (db : Db) (salt : Nat) (secret : String) (now : Int)
    (expire_minutes : Int) (user : UserCreate) : Except HTTPException (Db × Token) :=
  match get_user db (lower user.email) with
  | some _ => Except.error { status_code := 400, detail := "Email already registered" }
  | none =>
    let hashed_password := get_password_hash salt user.password
    let db_user : User :=
      { id := db.length + 1, email := lower user.email, name := none,
        hashed_password := hashed_password, is_active := true,
        security_question_1 := none, security_answer_1_hash := none,
        security_question_2 := none, security_answer_2_hash := none,
        security_question_3 := none, security_answer_3_hash := none }
    let access_token := create_access_token secret now [("sub", db_user.email)] (expire_minutes * 60)
    let user_response :=
      { UserResponse.model_validate db_user with
        has_security_questions := user_has_security_questions db_user }
    Except.ok (db ++ [db_user],
      { access_token := access_token, token_type := "bearer", user := user_response })

/-- `POST /auth/login` (`auth.login_user`): authenticate by case-folded form
username, 401 with a generic message on failure, else issue a token. -/
def login_user (db : Db) (secret : String) (now : Int) (expire_minutes : Int)
    (username : String) (password : String) : Except HTTPException Token :=
  match authenticate_user db (lower username) password with
  | none => Except.error { status_code := 401, detail := "Incorrect email or password" }
  | some user_obj =>
    let access_token := create_access_token secret now [("sub", user_obj.email)] (expire_minutes * 60)
    let user_response :=
      { UserResponse.model_validate user_obj with
        has_security_questions := user_has_security_questions user_obj }
    Except.ok { access_token := access_token, token_type := "bearer", user := user_response }

/-- `GET /auth/me` (`auth.read_current_user`): the `get_current_user`
dependency has already resolved the token to `current_user`; the router
returns the public projection with the derived security-questions flag. -/
def read_current_user (current_user : User) : UserResponse :=
  { UserResponse.model_validate current_user with
    has_security_questions := user_has_security_questions current_user }

/-- `POST /auth/security-questions` (`auth.setup_security_questions`): write
all three question texts and the hashes of the (already normalized) answers
into the current user's row and commit. -/
def setup_security_questions (current_user : User) (s1 s2 s3 : Nat)
    (q1 q2 q3 : SecurityQuestion) : User × String :=
  ({ current_user with
      security_question_1 := some q1.question,
      security_answer_1_hash := some (get_password_hash s1 q1.answer),
      security_question_2 := some q2.question,
      security_answer_2_hash := some (get_password_hash s2 q2.answer),
      security_question_3 := some q3.question,
      security_answer_3_hash := some (get_password_hash s3 q3.answer) },
    "Security questions set up successfully")

/-- `PUT /auth/security-questions/individual`
(`auth.update_individual_security_question`): verify the current password
(400 if wrong, nothing modified), then overwrite exactly the slot selected by
`question_index` and commit. -/
def update_individual_security_question (current_user : User) (salt : Nat)
    (question_data : SecurityQuestionUpdate) : Except HTTPException (User × String) :=
  if !(verify_password question_data.current_password current_user.hashed_password) then
    Except.error { status_code := 400, detail := "Current password is incorrect" }
  else
    let updated :=
      if question_data.question_index == 0 then
        { current_user with
            security_question_1 := some question_data.question,
            security_answer_1_hash := some (get_password_hash salt question_data.answer) }
      else if question_data.question_index == 1 then
        { current_user with
            security_question_2 := some question_data.question,
            security_answer_2_hash := some (get_password_hash salt question_data.answer) }
      else if question_data.question_index == 2 then
        { current_user with
            security_question_3 := some question_data.question,
            security_answer_3_hash := some (get_password_hash salt question_data.answer) }
      else current_user
    Except.ok (updated,
      "Security question " ++ toString (question_data.question_index + 1) ++ " updated successfully")

/-- `POST /auth/password/reset-request` (`auth.request_password_reset`):
404 when no user has the given email, 400 when the user lacks fully
configured security questions, otherwise the three stored question texts.
The router performs no write. -/
def request_password_reset (db : Db) (email : String) :
    Except HTTPException SecurityQuestionsResponse :=
  match get_user db email with
  | none =>
    Except.error
      { status_code := 404,
        detail := "If this email is registered and has security questions set up, they will be displayed." }
  | some user =>
    if !(user_has_security_questions user) then
      Except.error
        { status_code := 400,
          detail := "No security questions found for this account. Please contact support." }
    else
      Except.ok { question_1 := user.security_question_1,
                  question_2 := user.security_question_2,
                  question_3 := user.security_question_3,
                  has_security_questions := true }

/-- Verification of one already-normalized answer against one stored optional
answer hash.  The `none` branch is unreachable in `verify_password_reset`
because it runs under the `user_has_security_questions` guard. -/
def verify_answer_hash (answer : String) (h : Option HashString) : Bool :=
  match h with
  | some h => verify_password answer h
  | none => false

/-- `POST /auth/password/reset-verify` (`auth.verify_password_reset`): look
the user up by the (validated, case-folded) email; 400 if absent or questions
not fully configured; 400 if any of the three normalized answers fails
verification; otherwise replace the stored password hash with a hash of the
new password and commit. -/
def verify_password_reset (db : Db) (salt : Nat) (reset_data : PasswordResetVerify) :
    Except HTTPException (Db × String) :=
  match get_user db reset_data.email with
  | none => Except.error { status_code := 400, detail := "Invalid reset request" }
  | some user =>
    if !(user_has_security_questions user) then
      Except.error { status_code := 400, detail := "Invalid reset request" }
    else if !(verify_answer_hash (reset_data.answers.getD 0 "") user.security_answer_1_hash &&
              verify_answer_hash (reset_data.answers.getD 1 "") user.security_answer_2_hash &&
              verify_answer_hash (reset_data.answers.getD 2 "") user.security_answer_3_hash) then
      Except.error { status_code := 400, detail := "One or more security answers are incorrect" }
    else
      Except.ok (db_update reset_data.email
          (fun u => { u with hashed_password := get_password_hash salt reset_data.new_password }) db,
        "Password reset successfully")

/-- The signup pipeline as the framework runs it: pydantic validation of the
request body (422 on failure, before the router and before any persistence),
then the router body. -/
def signup (db : Db) (salt : Nat) (secret : String) (now : Int) (expire_minutes : Int)
    (raw : UserCreate) : Except HTTPException (Db × Token) :=
  match UserCreate.validate raw with
  | Except.error msg => Except.error { status_code := 422, detail := msg }
  | Except.ok validated => create_user db salt secret now expire_minutes validated

/-! ## Expense / reference-entity CRUD (`app/routers/expenses.py`)

Only the parts the claims touch: the four reference-entity delete endpoints
and their shared referential-integrity helper. -/

/-- An `expenses` row, restricted to the foreign keys to reference
entities. -/
structure ExpenseRec where
  id : Nat
  business_unit_id : Option Nat
  truck_id : Option Nat
  trailer_id : Option Nat
  fuel_station_id : Option Nat
deriving DecidableEq, Repr

/-- A reference-entity row (truck, trailer, fuel station, business unit):
surrogate id plus the unique human-readable identifier. -/
structure RefEntity where
  id : Nat
  name : String
deriving DecidableEq, Repr

/-- The slice of the store the expense CRUD flow touches. -/
structure ExpenseDb where
  expenses : List ExpenseRec
  business_units : List RefEntity
  trucks : List RefEntity
  trailers : List RefEntity
  fuel_stations : List RefEntity
deriving DecidableEq, Repr

/-- The four reference-entity kinds, i.e. the possible values of
`entity_name` in `check_entity_usage_and_delete`. -/
inductive EntityKind where
  | business_unit
  | truck
  | trailer
  | fuel_station
deriving DecidableEq, Repr

/-- `getattr(Expense, f"{entity_name}_id")` applied to a row. -/
def entity_fk : EntityKind → ExpenseRec → Option Nat
  | EntityKind.business_unit, e => e.business_unit_id
  | EntityKind.truck, e => e.truck_id
  | EntityKind.trailer, e => e.trailer_id
  | EntityKind.fuel_station, e => e.fuel_station_id

/-- The `entity_name` string interpolated into the 400 detail. -/
def entity_name : EntityKind → String
  | EntityKind.business_unit => "business_unit"
  | EntityKind.truck => "truck"
  | EntityKind.trailer => "trailer"
  | EntityKind.fuel_station => "fuel_station"

/-- The table the entity lives in. -/
def entity_list : EntityKind → ExpenseDb → List RefEntity
  | EntityKind.business_unit, db => db.business_units
  | EntityKind.truck, db => db.trucks
  | EntityKind.trailer, db => db.trailers
  | EntityKind.fuel_station, db => db.fuel_stations

/-- Write the entity's table back into the store. -/
def set_entity_list : EntityKind → ExpenseDb → List RefEntity → ExpenseDb
  | EntityKind.business_unit, db, l => { db with business_units := l }
  | EntityKind.truck, db, l => { db with trucks := l }
  | EntityKind.trailer, db, l => { db with trailers := l }
  | EntityKind.fuel_station, db, l => { db with fuel_stations := l }

/-- `db.query(Expense).filter(fk == entity_id).count()`. -/
def expense_ref_count (db : ExpenseDb) (k : EntityKind) (entity_id : Nat) : Nat :=
  (db.expenses.filter fun e => entity_fk k e == some entity_id).length

/-- `db.delete(entity)`: remove the row with the given id from a table. -/
def delete_by_id : List RefEntity → Nat → List RefEntity
  | [], _ => []
  | e :: rest, i => if e.id == i then rest else e :: delete_by_id rest i

/-- `expenses.check_entity_usage_and_delete`: 400 (and no deletion) while any
expense still references the entity, else delete it and commit. -/
def check_entity_usage_and_delete (db : ExpenseDb) (k : EntityKind) (entity_id : Nat) :
    Except HTTPException ExpenseDb :=
  let expense_count := expense_ref_count db k entity_id
  if expense_count > 0 then
    Except.error
      { status_code := 400,
        detail := "Cannot delete " ++ entity_name k ++ ": " ++ toString expense_count
          ++ " expense(s) reference it" }
  else
    Except.ok (set_entity_list k db (delete_by_id (entity_list k db) entity_id))

/-- `DELETE /trucks/{id}` (`expenses.delete_truck`). -/
def delete_truck (db : ExpenseDb) (truck_id : Nat) : Except HTTPException ExpenseDb :=
  match db.trucks.find? (fun t => t.id == truck_id) with
  | none => Except.error { status_code := 404, detail := "Truck not found" }
  | some _ => check_entity_usage_and_delete db EntityKind.truck truck_id

/-- `DELETE /trailers/{id}` (`expenses.delete_trailer`). -/
def delete_trailer (db : ExpenseDb) (trailer_id : Nat) : Except HTTPException ExpenseDb :=
  match db.trailers.find? (fun t => t.id == trailer_id) with
  | none => Except.error { status_code := 404, detail := "Trailer not found" }
  | some _ => check_entity_usage_and_delete db EntityKind.trailer trailer_id

/-- `DELETE /fuel-stations/{id}` (`expenses.delete_fuel_station`). -/
def delete_fuel_station (db : ExpenseDb) (fuel_station_id : Nat) : Except HTTPException ExpenseDb :=
  match db.fuel_stations.find? (fun t => t.id == fuel_station_id) with
  | none => Except.error { status_code := 404, detail := "Fuel station not found" }
  | some _ => check_entity_usage_and_delete db EntityKind.fuel_station fuel_station_id

/-- `DELETE /business-units/{id}` (`expenses.delete_business_unit`). -/
def delete_business_unit (db : ExpenseDb) (business_unit_id : Nat) : Except HTTPException ExpenseDb :=
  match db.business_units.find? (fun t => t.id == business_unit_id) with
  | none => Except.error { status_code := 404, detail := "Business unit not found" }
  | some _ => check_entity_usage_and_delete db EntityKind.business_unit business_unit_id

/-- Dispatcher over the four delete endpoints, for stating one theorem about
all of them. -/
def delete_entity : EntityKind → ExpenseDb → Nat → Except HTTPException ExpenseDb
  | EntityKind.business_unit, db, i => delete_business_unit db i
  | EntityKind.truck, db, i => delete_truck db i
  | EntityKind.trailer, db, i => delete_trailer db i
  | EntityKind.fuel_station, db, i => delete_fuel_station db i

/-- A sample stored user row, for concrete evaluations. -/
def sampleBaseUser : User :=
  { id := 1, email := "a@b.co", name := none,
    hashed_password := get_password_hash 1 "Current1!", is_active := true,
    security_question_1 := none, security_answer_1_hash := none,
    security_question_2 := none, security_answer_2_hash := none,
    security_question_3 := none, security_answer_3_hash := none }

/-- The sample user after security-question setup with normalized answers
`"blue"`, `"rex"`, `"chicago"`. -/
def sampleConfiguredUser : User :=
  (setup_security_questions sampleBaseUser 2 3 4
    { question := "what is your favorite color",
      answer := "blue", current_password := "Current1!" }
    { question := "what was your first pet name",
      answer := "rex", current_password := "Current1!" }
    { question := "in what city were you born",
      answer := "chicago", current_password := "Current1!" }).1

/-! ## Shared helper lemmas -/

/-- ASCII lowering is idempotent on characters: the image of the case table
contains no key of the case table. -/
theorem lowerChar_idem (c : Char) : lowerChar (lowerChar c) = lowerChar c := by
  have key : ∀ p ∈ asciiCasePairs, asciiCasePairs.find? (fun q => q.1 == p.2) = none := by
    decide
  unfold lowerChar
  cases h : asciiCasePairs.find? (fun p => p.1 == c) with
  | none => simp [h]
  | some p => simp [h, key p (List.mem_of_find?_eq_some h)]

/-- Case folding is idempotent on strings. -/
theorem lower_idem (s : String) : lower (lower s) = lower s := by
  have h : lowerChar ∘ lowerChar = lowerChar := funext lowerChar_idem
  simp [lower, List.map_map, h]

/-- A row appended behind a store that misses the email is found iff it
matches. -/
theorem get_user_append (db : Db) (u : User) (e : String)
    (h : get_user db e = none) (hu : u.email = e) :
    get_user (db ++ [u]) e = some u := by
  induction db with
  | nil => simp [get_user, List.find?, hu]
  | cons v rest ih =>
    simp only [get_user, List.find?, List.cons_append] at h ⊢
    cases hv : (v.email == e) with
    | true => simp [hv] at h
    | false =>
      simp only [hv] at h ⊢
      exact ih h

/-- Committing a mutation of the row an email-lookup found yields the mutated
row on the next lookup, provided the mutation does not touch the email. -/
theorem get_user_db_update (db : Db) (e : String) (f : User → User) (u : User)
    (hf : ∀ v, (f v).email = v.email)
    (h : get_user db e = some u) :
    get_user (db_update e f db) e = some (f u) := by
  induction db with
  | nil => simp [get_user, List.find?] at h
  | cons v rest ih =>
    simp only [get_user, List.find?] at h
    cases hv : (v.email == e) with
    | true =>
      simp only [hv, if_pos rfl] at h
      cases h
      simp [db_update, hv, get_user, List.find?, hf, hv]
    | false =>
      simp only [hv] at h
      simp only [db_update, hv, Bool.false_eq_true, if_false, get_user, List.find?]
      exact ih h

/-- `db_update` touches no other row: rows with a different email are
returned unchanged by lookups. -/
theorem get_user_db_update_other (db : Db) (e e2 : String) (f : User → User)
    (hf : ∀ v, (f v).email = v.email) (hne : e2 ≠ e) :
    get_user (db_update e f db) e2 = get_user db e2 := by
  induction db with
  | nil => simp [db_update]
  | cons v rest ih =>
    cases hv : (v.email == e) with
    | true =>
      have hv2 : ((f v).email == e2) = (v.email == e2) := by rw [hf]
      simp only [db_update, hv, if_pos rfl, get_user, List.find?, hv2]
      cases hw : (v.email == e2) with
      | true =>
        exfalso
        exact hne (by rw [← eq_of_beq hw, eq_of_beq hv])
      | false => simp
    | false =>
      simp only [db_update, hv, Bool.false_eq_true, if_false, get_user, List.find?]
      cases hw : (v.email == e2) with
      | true => simp
      | false => simpa [get_user] using ih

/-- A validated security answer is the normalized input. -/
theorem validate_answer_ok_eq (v r : String)
    (h : SecurityQuestion.validate_answer v = Except.ok r) : r = normalizeAnswer v := by
  simp only [SecurityQuestion.validate_answer] at h
  split_ifs at h
  all_goals exact (Except.ok.inj h).symm

/-- The success branch of `verify_password_reset`: user found, questions
configured, all three answers verified. -/
theorem verify_password_reset_success (db : Db) (salt : Nat) (rd : PasswordResetVerify)
    (u : User) (hu : get_user db rd.email = some u)
    (hq : user_has_security_questions u = true)
    (hans : (verify_answer_hash (rd.answers.getD 0 "") u.security_answer_1_hash &&
             verify_answer_hash (rd.answers.getD 1 "") u.security_answer_2_hash &&
             verify_answer_hash (rd.answers.getD 2 "") u.security_answer_3_hash) = true) :
    verify_password_reset db salt rd =
      Except.ok (db_update rd.email
          (fun v => { v with hashed_password := get_password_hash salt rd.new_password }) db,
        "Password reset successfully") := by
  simp only [verify_password_reset, hu, hq, hans]
  simp

/-! ## Claim theorems -/

/-- C1: for every claim set `c` containing a subject and every ttl `t > 0`,
verifying the token issued for `(c, t)` at a time before the expiration
returns `c`'s subject, and verifying it at any time after the expiration
returns invalid; verification returns invalid (an `Option.none` result, no
exception) whenever the signature does not verify, the token is malformed,
the expiration has passed, or the subject claim is absent. -/
theorem token_issue_verify_roundtrip
    (secret : String) (c : List (String × String)) (s : String) (t now : Int)
    (hsub : lookupClaim "sub" c = some s) (_ht : 0 < t) :
    (∀ v : Int, v < now + t →
      verify_token secret v (create_access_token secret now c t) = some s)
    ∧ (∀ v : Int, now + t < v →
      verify_token secret v (create_access_token secret now c t) = none)
    ∧ (∀ (v : Int) (raw : String),
      verify_token secret v (TokenString.malformed raw) = none)
    ∧ (∀ (v : Int) (s2 : String) (p : TokenPayload), s2 ≠ secret →
      verify_token secret v (TokenString.signed s2 p) = none)
    ∧ (∀ (v now2 t2 : Int) (c2 : List (String × String)), lookupClaim "sub" c2 = none →
      verify_token secret v (create_access_token secret now2 c2 t2) = none) := by
  refine ⟨?_, ?_, ?_, ?_, ?_⟩
  · intro v hv
    simp only [verify_token, create_access_token]
    rw [if_neg (by simp), if_neg (by omega)]
    exact hsub
  · intro v hv
    simp only [verify_token, create_access_token]
    rw [if_neg (by simp), if_pos (by omega)]
  · intro v raw
    simp [verify_token]
  · intro v s2 p hne
    simp only [verify_token]
    rw [if_pos hne]
  · intro v now2 t2 c2 hc2
    simp only [verify_token, create_access_token]
    rw [if_neg (by simp)]
    split
    · rfl
    · exact hc2

/-- Witness for C1: a token issued at time 0 with a 1800-second ttl verifies
to its subject at time 5. -/
theorem token_issue_verify_roundtrip_witness :
    verify_token "k" 5 (create_access_token "k" 0 [("sub", "a@b.co")] 1800) = some "a@b.co" :=
  (token_issue_verify_roundtrip "k" [("sub", "a@b.co")] "a@b.co" 1800 0 (by decide)
    (by decide)).1 5 (by decide)

/-- C2: the `has_security_questions` flag reported by `WhoAmI`
(`read_current_user`) is true iff all three question texts and all three
answer hashes are non-null; a user with only two of the three pairs
configured is reported as false. -/
theorem whoami_security_questions_flag (u : User) :
    ((read_current_user u).has_security_questions = true ↔
      (u.security_question_1 ≠ none ∧ u.security_answer_1_hash ≠ none ∧
       u.security_question_2 ≠ none ∧ u.security_answer_2_hash ≠ none ∧
       u.security_question_3 ≠ none ∧ u.security_answer_3_hash ≠ none))
    ∧ ((u.security_question_3 = none ∨ u.security_answer_3_hash = none) →
      (read_current_user u).has_security_questions = false) := by
  constructor
  · simp [read_current_user, UserResponse.model_validate, user_has_security_questions,
      Option.isSome_iff_ne_none, and_assoc]
  · intro h
    rcases h with h | h <;>
      simp [read_current_user, UserResponse.model_validate, user_has_security_questions, h]

/-- Witness for C2: a user with pairs 1 and 2 configured but pair 3 absent is
reported as not having security questions. -/
theorem whoami_security_questions_flag_witness :
    (read_current_user
      { id := 1, email := "a@b.co", name := none,
        hashed_password := get_password_hash 1 "pw", is_active := true,
        security_question_1 := some "first pet name?",
        security_answer_1_hash := some (get_password_hash 2 "rex"),
        security_question_2 := some "favorite color?",
        security_answer_2_hash := some (get_password_hash 3 "blue"),
        security_question_3 := none,
        security_answer_3_hash := none }).has_security_questions = false :=
  (whoami_security_questions_flag _).2 (Or.inl rfl)

/-- C5: signup password validation accepts `p` iff `8 ≤ |p| ≤ 128` and `p`
contains a lowercase letter, an uppercase letter, a digit and a character
from `@$!%*?&`; `"weak"` is rejected, `"Strong1!"` accepted, and a rejected
password makes the whole signup pipeline fail at validation, before any
persistence (the 422 error is produced without a store write). -/
theorem signup_password_policy :
    (∀ p : String,
      ((UserCreate.validate_password p).isOk = true ↔
        (8 ≤ p.length ∧ p.length ≤ 128 ∧
         (∃ c ∈ p.data, c.isLower = true) ∧ (∃ c ∈ p.data, c.isUpper = true) ∧
         (∃ c ∈ p.data, c.isDigit = true) ∧ (∃ c ∈ p.data, isPasswordSpecial c = true))))
    ∧ (UserCreate.validate_password "weak").isOk = false
    ∧ (UserCreate.validate_password "Strong1!").isOk = true
    ∧ (∀ (db : Db) (salt : Nat) (secret : String) (now expire_minutes : Int)
        (raw : UserCreate),
        (UserCreate.validate_password raw.password).isOk = false →
        ∃ msg, signup db salt secret now expire_minutes raw =
          Except.error { status_code := 422, detail := msg }) := by
  refine ⟨?_, by decide, by decide, ?_⟩
  · intro p
    constructor
    · intro hok
      simp only [UserCreate.validate_password] at hok
      split_ifs at hok with h1 h2 h3 h4 h5 h6
      · exact absurd hok (by simp [Except.isOk, Except.toBool])
      · exact absurd hok (by simp [Except.isOk, Except.toBool])
      · exact absurd hok (by simp [Except.isOk, Except.toBool])
      · exact absurd hok (by simp [Except.isOk, Except.toBool])
      · exact absurd hok (by simp [Except.isOk, Except.toBool])
      · exact absurd hok (by simp [Except.isOk, Except.toBool])
      · exact ⟨by omega, by omega,
          List.any_eq_true.mp (by simpa using h3),
          List.any_eq_true.mp (by simpa using h4),
          List.any_eq_true.mp (by simpa using h5),
          List.any_eq_true.mp (by simpa using h6)⟩
    · rintro ⟨hl, hr, he1, he2, he3, he4⟩
      simp only [UserCreate.validate_password]
      rw [if_neg (by omega), if_neg (by omega),
        if_neg (by simpa using List.any_eq_true.mpr he1),
        if_neg (by simpa using List.any_eq_true.mpr he2),
        if_neg (by simpa using List.any_eq_true.mpr he3),
        if_neg (by simpa using List.any_eq_true.mpr he4)]
      rfl
  · intro db salt secret now expire_minutes raw hbad
    cases he : UserCreate.validate_email raw.email with
    | error m => exact ⟨m, by simp [signup, UserCreate.validate, he]⟩
    | ok e =>
      cases hp : UserCreate.validate_password raw.password with
      | error m => exact ⟨m, by simp [signup, UserCreate.validate, he, hp]⟩
      | ok v => rw [hp] at hbad; simp [Except.isOk, Except.toBool] at hbad

/-- Witness for C5: the signup pipeline rejects the weak password before
touching the (empty) store. -/
theorem signup_password_policy_witness :
    ∃ msg, signup [] 1 "k" 0 30 { email := "a@b.co", password := "weak", confirm_password := "weak" } =
      Except.error { status_code := 422, detail := msg } :=
  signup_password_policy.2.2.2 [] 1 "k" 0 30 _ (by decide)

/-- C8: password-reset request fails with 404 when no user has the email and
with 400 when the user exists but questions are not fully configured (two
observably different outcomes); on success it returns exactly the three
stored question texts in a response shape that has no field for answers or
hashes, and the operation performs no store write. -/
theorem reset_request_spec (db : Db) (email : String) :
    (get_user db email = none →
      request_password_reset db email =
        Except.error
          { status_code := 404,
            detail := "If this email is registered and has security questions set up, they will be displayed." })
    ∧ (∀ u, get_user db email = some u → user_has_security_questions u = false →
      request_password_reset db email =
        Except.error
          { status_code := 400,
            detail := "No security questions found for this account. Please contact support." })
    ∧ (∀ u, get_user db email = some u → user_has_security_questions u = true →
      request_password_reset db email =
        Except.ok { question_1 := u.security_question_1,
                    question_2 := u.security_question_2,
                    question_3 := u.security_question_3,
                    has_security_questions := true }) := by
  refine ⟨?_, ?_, ?_⟩
  · intro h
    simp [request_password_reset, h]
  · intro u hu hq
    simp [request_password_reset, hu, hq]
  · intro u hu hq
    simp [request_password_reset, hu, hq]

/-- Witness for C8: on an empty store every reset request 404s. -/
theorem reset_request_spec_witness :
    request_password_reset [] "x@y.co" =
      Except.error
        { status_code := 404,
          detail := "If this email is registered and has security questions set up, they will be displayed." } :=
  (reset_request_spec [] "x@y.co").1 rfl

/-- C9: for each of the four reference-entity kinds, deleting an existing
entity fails with 400 (and no deletion happens — the error carries no new
store) whenever at least one expense references it by foreign key, and
deletes the entity — leaving the expense table unchanged — exactly when the
count of referencing expenses is zero. -/
theorem reference_entity_delete_integrity (k : EntityKind) (db : ExpenseDb) (i : Nat)
    (ent : RefEntity)
    (hfind : (entity_list k db).find? (fun t => t.id == i) = some ent) :
    (0 < expense_ref_count db k i →
      delete_entity k db i =
        Except.error
          { status_code := 400,
            detail := "Cannot delete " ++ entity_name k ++ ": "
              ++ toString (expense_ref_count db k i) ++ " expense(s) reference it" })
    ∧ (expense_ref_count db k i = 0 →
      delete_entity k db i =
        Except.ok (set_entity_list k db (delete_by_id (entity_list k db) i))
      ∧ (set_entity_list k db (delete_by_id (entity_list k db) i)).expenses = db.expenses) := by
  cases k <;>
    simp only [entity_list] at hfind <;>
    refine ⟨?_, fun hc => ⟨?_, ?_⟩⟩ <;>
    simp_all [delete_entity, delete_truck, delete_trailer, delete_fuel_station,
      delete_business_unit, check_entity_usage_and_delete, entity_list, set_entity_list,
      entity_name, Nat.pos_iff_ne_zero]

/-- Witness for C9: a truck referenced by one expense cannot be deleted. -/
theorem reference_entity_delete_integrity_witness :
    delete_entity EntityKind.truck
      { expenses := [{ id := 1, business_unit_id := none, truck_id := some 1,
                       trailer_id := none, fuel_station_id := none }],
        business_units := [], trucks := [{ id := 1, name := "T1" }],
        trailers := [], fuel_stations := [] } 1 =
      Except.error
        { status_code := 400,
          detail := "Cannot delete truck: 1 expense(s) reference it" } :=
  (reference_entity_delete_integrity EntityKind.truck _ 1 { id := 1, name := "T1" }
    (by decide)).1 (by decide)

/-- C10: an individual security-question update with a correct current
password and index i replaces exactly slot i's question text and answer hash
(every other field of the row, including the other two slots, the email and
the stored password hash, is unchanged by the record update); a wrong current
password yields 400 and no modification; and the index validator accepts
exactly 0, 1, 2. -/
theorem individual_security_question_update (u : User) (salt : Nat)
    (qd : SecurityQuestionUpdate) :
    (verify_password qd.current_password u.hashed_password = false →
      update_individual_security_question u salt qd =
        Except.error { status_code := 400, detail := "Current password is incorrect" })
    ∧ (verify_password qd.current_password u.hashed_password = true →
      ((qd.question_index = 0 →
        update_individual_security_question u salt qd =
          Except.ok ({ u with
              security_question_1 := some qd.question,
              security_answer_1_hash := some (get_password_hash salt qd.answer) },
            "Security question 1 updated successfully"))
       ∧ (qd.question_index = 1 →
        update_individual_security_question u salt qd =
          Except.ok ({ u with
              security_question_2 := some qd.question,
              security_answer_2_hash := some (get_password_hash salt qd.answer) },
            "Security question 2 updated successfully"))
       ∧ (qd.question_index = 2 →
        update_individual_security_question u salt qd =
          Except.ok ({ u with
              security_question_3 := some qd.question,
              security_answer_3_hash := some (get_password_hash salt qd.answer) },
            "Security question 3 updated successfully"))))
    ∧ (∀ j : Nat,
        SecurityQuestionUpdate.validate_question_index j = Except.ok j ↔
          (j = 0 ∨ j = 1 ∨ j = 2)) := by
  refine ⟨?_, fun hv => ⟨?_, ?_, ?_⟩, ?_⟩
  · intro hfail
    simp [update_individual_security_question, hfail]
  · intro hi
    simp only [update_individual_security_question, hv, hi, Bool.not_true,
      Bool.false_eq_true, if_false, beq_self_eq_true, if_pos]
    rfl
  · intro hi
    simp only [update_individual_security_question, hv, hi, Bool.not_true,
      Bool.false_eq_true, if_false]
    rfl
  · intro hi
    simp only [update_individual_security_question, hv, hi, Bool.not_true,
      Bool.false_eq_true, if_false]
    rfl
  · intro j
    simp only [SecurityQuestionUpdate.validate_question_index]
    split_ifs with h
    · simp only [reduceCtorEq, false_iff]
      tauto
    · simp only [Except.ok.injEq, true_iff]
      tauto

/-- Witness for C10: updating slot 0 with the correct current password. -/
theorem individual_security_question_update_witness :
    update_individual_security_question
      { id := 1, email := "a@b.co", name := none,
        hashed_password := get_password_hash 7 "Current1!", is_active := true,
        security_question_1 := none, security_answer_1_hash := none,
        security_question_2 := none, security_answer_2_hash := none,
        security_question_3 := none, security_answer_3_hash := none } 3
      { question := "what is your favorite color", answer := "blue",
        current_password := "Current1!", question_index := 0 } =
      Except.ok
        ({ id := 1, email := "a@b.co", name := none,
           hashed_password := get_password_hash 7 "Current1!", is_active := true,
           security_question_1 := some "what is your favorite color",
           security_answer_1_hash := some (get_password_hash 3 "blue"),
           security_question_2 := none, security_answer_2_hash := none,
           security_question_3 := none, security_answer_3_hash := none },
         "Security question 1 updated successfully") :=
  ((individual_security_question_update _ 3 _).2.1 (by decide)).1 rfl

/-- C3: security-question setup normalizes every answer by trimming and
lowercasing before hashing, password-reset verify applies the identical
normalization to each supplied answer, and hence a user whose questions were
set with answers `a1 a2 a3` passes the reset-verify answer checks with any
answers `b1 b2 b3` that differ from them only in letter case and/or
surrounding whitespace (i.e. agree after normalization). -/
theorem answer_normalization_roundtrip :
    (∀ v r : String, SecurityQuestion.validate_answer v = Except.ok r →
      r = normalizeAnswer v)
    ∧ (∀ (l r : List String), PasswordResetVerify.validate_answers l = Except.ok r →
      r = l.map fun a => normalizeAnswer a)
    ∧ (∀ (db : Db) (u : User) (s1 s2 s3 salt : Nat)
        (q1 q2 q3 cp1 cp2 cp3 a1 a2 a3 na1 na2 na3 b1 b2 b3 : String)
        (rd : PasswordResetVerify),
        SecurityQuestion.validate_answer a1 = Except.ok na1 →
        SecurityQuestion.validate_answer a2 = Except.ok na2 →
        SecurityQuestion.validate_answer a3 = Except.ok na3 →
        get_user db rd.email =
          some (setup_security_questions u s1 s2 s3
            { question := q1, answer := na1, current_password := cp1 }
            { question := q2, answer := na2, current_password := cp2 }
            { question := q3, answer := na3, current_password := cp3 }).1 →
        rd.answers = [normalizeAnswer b1, normalizeAnswer b2, normalizeAnswer b3] →
        normalizeAnswer b1 = normalizeAnswer a1 →
        normalizeAnswer b2 = normalizeAnswer a2 →
        normalizeAnswer b3 = normalizeAnswer a3 →
        verify_password_reset db salt rd =
          Except.ok (db_update rd.email
              (fun v => { v with hashed_password := get_password_hash salt rd.new_password }) db,
            "Password reset successfully")) := by
  refine ⟨validate_answer_ok_eq, ?_, ?_⟩
  · intro l r h
    simp only [PasswordResetVerify.validate_answers] at h
    split_ifs at h
    all_goals exact (Except.ok.inj h).symm
  · intro db u s1 s2 s3 salt q1 q2 q3 cp1 cp2 cp3 a1 a2 a3 na1 na2 na3 b1 b2 b3 rd
      h1 h2 h3 hu hans hb1 hb2 hb3
    have e1 : na1 = normalizeAnswer a1 := validate_answer_ok_eq a1 na1 h1
    have e2 : na2 = normalizeAnswer a2 := validate_answer_ok_eq a2 na2 h2
    have e3 : na3 = normalizeAnswer a3 := validate_answer_ok_eq a3 na3 h3
    refine verify_password_reset_success db salt rd _ hu ?_ ?_
    · simp [setup_security_questions, user_has_security_questions]
    · simp [setup_security_questions, hans, verify_answer_hash, verify_password,
        get_password_hash, e1, e2, e3, hb1, hb2, hb3]

/-- Witness for C3: questions set with answers `["Blue", "Rex", "Chicago"]`
pass reset-verify with the case/whitespace variations
`["blue", " REX ", "chicago"]`. -/
theorem answer_normalization_roundtrip_witness :
    verify_password_reset [sampleConfiguredUser] 9
      { email := "a@b.co",
        answers := [normalizeAnswer "blue", normalizeAnswer " REX ", normalizeAnswer "chicago"],
        new_password := "NewPass1!", confirm_password := "NewPass1!" } =
      Except.ok (db_update "a@b.co"
          (fun v => { v with hashed_password := get_password_hash 9 "NewPass1!" })
          [sampleConfiguredUser],
        "Password reset successfully") :=
  answer_normalization_roundtrip.2.2 [sampleConfiguredUser] sampleBaseUser 2 3 4 9
    "what is your favorite color" "what was your first pet name" "in what city were you born"
    "Current1!" "Current1!" "Current1!" "Blue" "Rex" "Chicago" "blue" "rex" "chicago"
    "blue" " REX " "chicago"
    { email := "a@b.co",
      answers := [normalizeAnswer "blue", normalizeAnswer " REX ", normalizeAnswer "chicago"],
      new_password := "NewPass1!", confirm_password := "NewPass1!" }
    (by decide) (by decide) (by decide) (by decide) (by decide)
    (by decide) (by decide) (by decide)

/-- C4: password-reset verify replaces the stored password hash exactly when
the user exists, has all three security questions configured, and all three
supplied answers verify; if the user is absent, the questions are not fully
configured, or any answer fails, it yields a 400 error (the `Except.error`
carries no store, so nothing is persisted); on success the user's row has
only its password hash replaced, every other field unchanged. -/
theorem password_reset_verify_spec (db : Db) (salt : Nat) (rd : PasswordResetVerify) :
    (get_user db rd.email = none →
      verify_password_reset db salt rd =
        Except.error { status_code := 400, detail := "Invalid reset request" })
    ∧ (∀ u, get_user db rd.email = some u → user_has_security_questions u = false →
      verify_password_reset db salt rd =
        Except.error { status_code := 400, detail := "Invalid reset request" })
    ∧ (∀ u, get_user db rd.email = some u → user_has_security_questions u = true →
      (verify_answer_hash (rd.answers.getD 0 "") u.security_answer_1_hash &&
       verify_answer_hash (rd.answers.getD 1 "") u.security_answer_2_hash &&
       verify_answer_hash (rd.answers.getD 2 "") u.security_answer_3_hash) = false →
      verify_password_reset db salt rd =
        Except.error { status_code := 400, detail := "One or more security answers are incorrect" })
    ∧ (∀ u, get_user db rd.email = some u → user_has_security_questions u = true →
      (verify_answer_hash (rd.answers.getD 0 "") u.security_answer_1_hash &&
       verify_answer_hash (rd.answers.getD 1 "") u.security_answer_2_hash &&
       verify_answer_hash (rd.answers.getD 2 "") u.security_answer_3_hash) = true →
      verify_password_reset db salt rd =
        Except.ok (db_update rd.email
            (fun v => { v with hashed_password := get_password_hash salt rd.new_password }) db,
          "Password reset successfully")
      ∧ get_user (db_update rd.email
            (fun v => { v with hashed_password := get_password_hash salt rd.new_password }) db)
          rd.email =
        some { u with hashed_password := get_password_hash salt rd.new_password }) := by
  refine ⟨?_, ?_, ?_, ?_⟩
  · intro h
    simp [verify_password_reset, h]
  · intro u hu hq
    simp [verify_password_reset, hu, hq]
  · intro u hu hq hans
    simp only [verify_password_reset, hu, hq, hans]
    simp
  · intro u hu hq hans
    exact ⟨verify_password_reset_success db salt rd u hu hq hans,
      get_user_db_update db rd.email _ u (fun _ => rfl) hu⟩

/-- Witness for C4: a reset-verify against an empty store is rejected with
"Invalid reset request" (and no store is produced). -/
theorem password_reset_verify_spec_witness :
    verify_password_reset [] 1
      { email := "a@b.co", answers := ["x", "y", "z"],
        new_password := "NewPass1!", confirm_password := "NewPass1!" } =
      Except.error { status_code := 400, detail := "Invalid reset request" } :=
  (password_reset_verify_spec [] 1 _).1 rfl

/-- C6: signup stores the email case-folded to lowercase, and login
case-folds the supplied identifier before lookup: for a fresh email `e1`
passing validation, signup persists a row whose email is `lower e1`, and a
subsequent login with any other casing `e2` of the same email (`lower e1 =
lower e2`) and the same correct password succeeds. -/
theorem signup_login_case_insensitive (db : Db) (salt : Nat) (secret : String)
    (now now2 expire_minutes : Int) (e1 e2 p : String)
    (hlen : ¬ e1.length > 254)
    (hpw : UserCreate.validate_password p = Except.ok p)
    (hcase : lower e1 = lower e2)
    (hfresh : get_user db (lower e1) = none) :
    signup db salt secret now expire_minutes
        { email := e1, password := p, confirm_password := p } =
      Except.ok (db ++
          [{ id := db.length + 1, email := lower e1, name := none,
             hashed_password := get_password_hash salt p, is_active := true,
             security_question_1 := none, security_answer_1_hash := none,
             security_question_2 := none, security_answer_2_hash := none,
             security_question_3 := none, security_answer_3_hash := none }],
        { access_token :=
            create_access_token secret now [("sub", lower e1)] (expire_minutes * 60),
          token_type := "bearer",
          user := { id := db.length + 1, email := lower e1, is_active := true,
                    has_security_questions := false } })
    ∧ ∃ tok2, login_user (db ++
          [{ id := db.length + 1, email := lower e1, name := none,
             hashed_password := get_password_hash salt p, is_active := true,
             security_question_1 := none, security_answer_1_hash := none,
             security_question_2 := none, security_answer_2_hash := none,
             security_question_3 := none, security_answer_3_hash := none }])
        secret now2 expire_minutes e2 p = Except.ok tok2 := by
  have hval : UserCreate.validate { email := e1, password := p, confirm_password := p } =
      Except.ok { email := lower e1, password := p, confirm_password := p } := by
    simp only [UserCreate.validate, UserCreate.validate_email, UserCreate.passwords_match, hpw]
    simp [hlen]
  have hfresh2 : get_user db (lower (lower e1)) = none := by
    rw [lower_idem]; exact hfresh
  constructor
  · simp only [signup, hval, create_user, UserResponse.model_validate,
      user_has_security_questions, lower_idem, hfresh]
    simp [user_has_security_questions, UserResponse.model_validate]
  · refine
      ⟨{ access_token :=
           create_access_token secret now2 [("sub", lower e1)] (expire_minutes * 60),
         token_type := "bearer",
         user :=
           { id := db.length + 1, email := lower e1, is_active := true,
             has_security_questions := false } }, ?_⟩
    have hrow : get_user (db ++
        [{ id := db.length + 1, email := lower e1, name := none,
           hashed_password := get_password_hash salt p, is_active := true,
           security_question_1 := none, security_answer_1_hash := none,
           security_question_2 := none, security_answer_2_hash := none,
           security_question_3 := none, security_answer_3_hash := none }])
        (lower e2) = some
        { id := db.length + 1, email := lower e1, name := none,
          hashed_password := get_password_hash salt p, is_active := true,
          security_question_1 := none, security_answer_1_hash := none,
          security_question_2 := none, security_answer_2_hash := none,
          security_question_3 := none, security_answer_3_hash := none } := by
      refine get_user_append db _ (lower e2) ?_ ?_
      · rw [← hcase]; exact hfresh
      · exact hcase
    simp only [get_password_hash] at hrow
    simp [login_user, authenticate_user, hrow, verify_password, get_password_hash,
      UserResponse.model_validate, user_has_security_questions]

/-- Witness for C6: signup with `"Test@Example.com"` then login with
`"test@example.com"` and the same password succeeds. -/
theorem signup_login_case_insensitive_witness :
    ∃ tok2, login_user
        [{ id := 1, email := "test@example.com", name := none,
           hashed_password := get_password_hash 1 "Strong1!", is_active := true,
           security_question_1 := none, security_answer_1_hash := none,
           security_question_2 := none, security_answer_2_hash := none,
           security_question_3 := none, security_answer_3_hash := none }]
        "k" 0 30 "test@example.com" "Strong1!" = Except.ok tok2 :=
  (signup_login_case_insensitive [] 1 "k" 0 0 30 "Test@Example.com" "test@example.com"
    "Strong1!" (by decide) (by decide) (by decide) rfl).2

/-- C7: a second signup with an email (in any casing) that already belongs to
an existing user yields the 400 "Email already registered" conflict, and —
since the error result carries no store — the existing user's record,
including its stored password hash, is unchanged and no new user is
persisted. -/
theorem duplicate_signup_conflict (db : Db) (salt : Nat) (secret : String)
    (now expire_minutes : Int) (e e2 p : String) (ex : User)
    (hex : get_user db (lower e) = some ex)
    (hcase : lower e2 = lower e)
    (hlen : ¬ e2.length > 254)
    (hpw : UserCreate.validate_password p = Except.ok p) :
    signup db salt secret now expire_minutes
        { email := e2, password := p, confirm_password := p } =
      Except.error { status_code := 400, detail := "Email already registered" } := by
  have hval : UserCreate.validate { email := e2, password := p, confirm_password := p } =
      Except.ok { email := lower e2, password := p, confirm_password := p } := by
    simp only [UserCreate.validate, UserCreate.validate_email, UserCreate.passwords_match, hpw]
    simp [hlen]
  have hdup : get_user db (lower (lower e2)) = some ex := by
    rw [lower_idem, hcase]; exact hex
  simp [signup, hval, create_user, hdup]

/-- Witness for C7: with `"test@example.com"` taken, signing up as
`"Test@Example.com"` is rejected with the conflict error. -/
theorem duplicate_signup_conflict_witness :
    signup
      [{ id := 1, email := "test@example.com", name := none,
         hashed_password := get_password_hash 1 "Strong1!", is_active := true,
         security_question_1 := none, security_answer_1_hash := none,
         security_question_2 := none, security_answer_2_hash := none,
         security_question_3 := none, security_answer_3_hash := none }] 2 "k" 0 30
        { email := "Test@Example.com", password := "Strong1!", confirm_password := "Strong1!" } =
      Except.error { status_code := 400, detail := "Email already registered" } :=
  duplicate_signup_conflict
    [{ id := 1, email := "test@example.com", name := none,
       hashed_password := get_password_hash 1 "Strong1!", is_active := true,
       security_question_1 := none, security_answer_1_hash := none,
       security_question_2 := none, security_answer_2_hash := none,
       security_question_3 := none, security_answer_3_hash := none }] 2 "k" 0 30
    "test@example.com" "Test@Example.com" "Strong1!"
    { id := 1, email := "test@example.com", name := none,
      hashed_password := get_password_hash 1 "Strong1!", is_active := true,
      security_question_1 := none, security_answer_1_hash := none,
      security_question_2 := none, security_answer_2_hash := none,
      security_question_3 := none, security_answer_3_hash := none }
    (by decide) (by decide) (by decide) (by decide)

end SwatchX
